import Mathlib

/-!
Verification development for a font-subsetting pipeline consisting of two
Python modules, `font_subset.py` and `extract_webpage_chars.py`.  The external
subsetting tool (`fontTools.subset`) is a black box; its behaviour on one
invocation is abstracted as a `ToolEnv` value describing how long the tool
runs, its exit code and streams, and whether/how large the output file it
leaves behind is.  All pure text processing (markup stripping, the three
character matchers) is embedded directly from the source regular expressions,
reproducing exactly how Python's `re` module parses them.
-/

/-- Set membership in a closed code-point interval, the building block of the
regex character classes below. -/
def inRange (lo hi n : Nat) : Bool := decide (lo ≤ n) && decide (n ≤ hi)

/-- What the external subsetting tool does on one invocation: the wall-clock
seconds it needs, its exit code, its captured output streams, and the state of
the output file it leaves (present or not, and its size in bytes). -/
structure ToolEnv where
  duration : Nat
  exitCode : Nat
  stdout : String
  stderr : String
  outputExists : Bool
  outputSize : Nat
deriving DecidableEq

/-- Outcome of one subsetting invocation, mirroring the four branches of the
Python functions: the `returncode == 0` success path (which records the output
file size), the non-zero-exit path (which prints the captured streams), the
`subprocess.TimeoutExpired` handler, and the catch-all `except Exception`
handler (reached e.g. when `os.path.getsize` raises on a missing output file).
All four return to the caller; no exception propagates. -/
inductive Outcome where
  | success (size : Nat)
  | failure (out err : String)
  | timedOut
  | error
deriving DecidableEq

/-- The boolean the Python functions actually return: `True` exactly on the
success branch, `False` on the three failure branches. -/
def Outcome.toBool : Outcome → Bool
  | .success _ => true
  | _ => false

namespace ExtractChars

/-- The set matched by Python's `\s` for `str` patterns (Python 3.x `re`):
ASCII whitespace `\t\n\v\f\r`, the separators U+001C–U+001F, space, U+0085,
U+00A0, U+1680, U+2000–U+200A, U+2028, U+2029, U+202F, U+205F and U+3000. -/
def isPythonSpace (c : Char) : Bool :=
  let n := c.toNat
  inRange 0x9 0xD n || inRange 0x1C 0x1F n || n == 0x20 || n == 0x85 || n == 0xA0 ||
  n == 0x1680 || inRange 0x2000 0x200A n || n == 0x2028 || n == 0x2029 ||
  n == 0x202F || n == 0x205F || n == 0x3000

/-- The character class of `extract_chinese_chars`:
`[一-鿿㐀-䶿豈-﫿㌀-㏿ 0-⩭f⩰0-⭳f⭴0-⮁f⮂0-⳪fⳫ0-⺾f　0-ㄴfㄵ0-㈺f]`.
Python's `\u` escape consumes exactly four hex digits, so each five-digit item
such as ` 0-⩭f` is parsed by `re` as the literal U+2000, the range
`0`–U+2A6D (i.e. 0x30–0x2A6D), and the literal `f` — not as an astral range.
The items below follow that parse one-for-one (confirmed against `re`'s parse
tree: LITERAL 0x2000, RANGE 0x30–0x2A6D, LITERAL 0x66, and so on). -/
def isChineseMatch (c : Char) : Bool :=
  let n := c.toNat
  inRange 0x4E00 0x9FFF n || inRange 0x3400 0x4DBF n || inRange 0xF900 0xFAFF n ||
  inRange 0x3300 0x33FF n ||
  (n == 0x2000) || inRange 0x30 0x2A6D n || (n == 0x66) ||
  (n == 0x2A70) || inRange 0x30 0x2B73 n || (n == 0x66) ||
  (n == 0x2B74) || inRange 0x30 0x2B81 n || (n == 0x66) ||
  (n == 0x2B82) || inRange 0x30 0x2CEA n || (n == 0x66) ||
  (n == 0x2CEB) || inRange 0x30 0x2EBE n || (n == 0x66) ||
  (n == 0x3000) || inRange 0x30 0x3134 n || (n == 0x66) ||
  (n == 0x3135) || inRange 0x30 0x323A n || (n == 0x66)

/-- The character class of `extract_latin_chars`:
`[a-zA-Z0-9\s.,!?;:()\[\]{}"\'-+=/\\|@#$%^&*~` + backtick + `]`.
Note `\'-+` is parsed by `re` as the range U+0027–U+002B (so `'()*+` are in,
and a literal hyphen-minus U+002D is NOT in the class). -/
def isLatinMatch (c : Char) : Bool :=
  let n := c.toNat
  inRange 0x61 0x7A n || inRange 0x41 0x5A n || inRange 0x30 0x39 n || isPythonSpace c ||
  n == 0x2E || n == 0x2C || n == 0x21 || n == 0x3F || n == 0x3B || n == 0x3A ||
  n == 0x28 || n == 0x29 || n == 0x5B || n == 0x5D || n == 0x7B || n == 0x7D ||
  n == 0x22 || inRange 0x27 0x2B n ||
  n == 0x3D || n == 0x2F || n == 0x5C || n == 0x7C || n == 0x40 || n == 0x23 ||
  n == 0x24 || n == 0x25 || n == 0x5E || n == 0x26 || n == 0x2A || n == 0x7E || n == 0x60

/-- The code points of the literal character class of `extract_symbols`
(full-width/CJK punctuation and shapes; `【】` appears twice in the source
class, which changes nothing). -/
def symbolCodes : List Nat :=
  [0xFF0C, 0x3002, 0xFF01, 0xFF1F, 0xFF1B, 0xFF1A, 0xFF08, 0xFF09,
   0x3010, 0x3011, 0x300C, 0x300D, 0x300E, 0x300F, 0x2014, 0x2026, 0xB7,
   0x300A, 0x300B, 0x3008, 0x3009, 0x3010, 0x3011, 0x3016, 0x3017, 0x3013,
   0x25A1, 0x25A0, 0x25CF, 0x25C6, 0x25C7, 0x25CB, 0x25CE, 0x25B3, 0x25B2,
   0x203B, 0x2192, 0x2190, 0x2191, 0x2193, 0x2196, 0x2197, 0x2198, 0x2199]

/-- Membership test for the `extract_symbols` class. -/
def isSymbolMatch (c : Char) : Bool := symbolCodes.contains c.toNat

/-- `extract_chinese_chars`: `findall` of a single-character class is exactly
the in-order filter of the text by the class. -/
def extract_chinese_chars (text : List Char) : List Char := text.filter isChineseMatch

/-- `extract_latin_chars`. -/
def extract_latin_chars (text : List Char) : List Char := text.filter isLatinMatch

/-- `extract_symbols`. -/
def extract_symbols (text : List Char) : List Char := text.filter isSymbolMatch

/-- One step bound used for the termination of `stripTags`: if `dropWhile`
returns a cons cell then its tail is strictly shorter than the input list. -/
theorem length_tail_dropWhile_lt {p : Char → Bool} {l : List Char}
    (h : l.dropWhile p ≠ []) : (l.dropWhile p).tail.length < l.length := by
  have hle : (l.dropWhile p).length ≤ l.length := (List.dropWhile_sublist p).length_le
  cases hd : l.dropWhile p with
  | nil => exact absurd hd h
  | cons x xs =>
    rw [hd] at hle
    simpa using Nat.lt_of_lt_of_le (Nat.lt_succ_self xs.length) hle

/-- `re.sub(r'<[^>]+>', '', s)` as performed by `analyze_html_content`.
The engine scans left to right; at a `<` the greedy `[^>]+` consumes the
maximal run of non-`>` characters, and the match succeeds exactly when that
run is non-empty and is followed by a `>`.  On a match the whole `<…>` span is
deleted and scanning resumes after it; otherwise the current character is kept
and scanning moves one position right. -/
def stripTags : List Char → List Char
  | [] => []
  | c :: rest =>
    if c = '<' ∧ rest.takeWhile (· != '>') ≠ [] ∧ rest.dropWhile (· != '>') ≠ [] then
      stripTags (rest.dropWhile (· != '>')).tail
    else
      c :: stripTags rest
termination_by l => l.length
decreasing_by
  · exact Nat.lt_succ_of_lt (length_tail_dropWhile_lt (by tauto))
  · exact Nat.lt_succ_self _

/-- The three category extractions of `analyze_html_content` (the frequency
`Counter`s built there are not consumed by any property considered here). -/
structure Analysis where
  chinese : List Char
  latin : List Char
  symbols : List Char
deriving DecidableEq

/-- `analyze_html_content`: strip markup, then run the three matchers on the
remaining text. -/
def analyze_html_content (html : List Char) : Analysis :=
  let text := stripTags html
  ⟨extract_chinese_chars text, extract_latin_chars text, extract_symbols text⟩

/-- The `timeout=900` argument (15 minutes) passed to `subprocess.run` by
`create_comprehensive_subset`. -/
def comprehensive_timeout : Nat := 900

/-- `create_comprehensive_subset`: writes the character list to a temporary
text file, invokes the tool with `--text-file`, removes the temporary file
after `subprocess.run` returns, then inspects the exit code.  Returns the
invocation `Outcome` together with whether the temporary file was removed.
The removal happens on the normal return path only (before the exit-code
check, hence also on the non-zero-exit and missing-output paths); the
`TimeoutExpired` handler is entered before the cleanup line runs, so the
temporary file is left behind on timeout.  The character list `all_chars` is
only written into the temporary file for the tool, so the abstracted outcome
does not depend on it. -/
def create_comprehensive_subset (all_chars : List Char) (env : ToolEnv) :
    Outcome × Bool :=
  if comprehensive_timeout < env.duration then
    (.timedOut, false)
  else if env.exitCode = 0 then
    if env.outputExists then (.success env.outputSize, true) else (.error, true)
  else
    (.failure env.stdout env.stderr, true)

/-- A font-face rule as emitted by this module's `create_css_file`: fixed
family `JingHuaLaoSongTi`, the comprehensive subset file, and no
unicode-range restriction. -/
structure CssRule where
  fontFamily : String
  srcFile : String
deriving DecidableEq

/-- This module's `create_css_file`: one font-face rule, no unicode-range. -/
def create_css_file : List CssRule :=
  [⟨"JingHuaLaoSongTi", "JingHuaLaoSongTi_comprehensive.woff2"⟩]

/-- Observable trace of one run of this module's `main`. -/
structure Run where
  aborted : Bool
  invoked : Bool
  outcome : Option Outcome
  tempRemoved : Option Bool
  css : Option (List CssRule)
deriving DecidableEq

/-- The trace of a run that returned early (any of the three `return`
statements before the subsetting invocation). -/
def abortRun : Run := ⟨true, false, none, none, none⟩

/-- The tail of this module's `main` once all preconditions passed: run the
comprehensive subsetting job on the deduplicated character set and write the
stylesheet exactly when the job returned `True`. -/
def runComprehensive (all_chars : List Char) (env : ToolEnv) : Run :=
  let r := create_comprehensive_subset all_chars env
  ⟨false, true, some r.1, some r.2, if r.1.toBool then some create_css_file else none⟩

/-- This module's `main`: aborts (early `return`) if the input font or the
corpus HTML file is missing, or if reading the HTML yields an empty string
(`read_html_file` swallows read errors and returns `""`).  Otherwise it
analyzes the corpus, deduplicates the union of the three matchers' outputs
(`list(set(...))`), and hands the result to the comprehensive job. -/
def main (fontExists htmlExists readOk : Bool) (html : List Char) (env : ToolEnv) : Run :=
  if fontExists then
    if htmlExists then
      let content := if readOk then html else []
      if content.isEmpty then abortRun
      else
        let analysis := analyze_html_content content
        let all_chars := (analysis.chinese ++ analysis.latin ++ analysis.symbols).dedup
        runComprehensive all_chars env
    else abortRun
  else abortRun

end ExtractChars

namespace FontSubset

/-- `get_unicode_ranges`: the fixed classification table of `font_subset.py`,
an ordered mapping from bucket name to inclusive code-point interval. -/
def get_unicode_ranges : List (String × Nat × Nat) :=
  [("basic_latin", 0x0020, 0x007F),
   ("latin_extended", 0x00A0, 0x00FF),
   ("cjk_basic", 0x4E00, 0x9FFF),
   ("cjk_symbols", 0x3000, 0x303F),
   ("cjk_radicals", 0x2E80, 0x2EFF)]

/-- The `timeout=300` argument (5 minutes) passed to `subprocess.run` by
`create_subset_font`. -/
def subset_timeout : Nat := 300

/-- `create_subset_font`: invokes the tool with `--unicodes=U+hhhh-hhhh` for
one bucket.  On `returncode == 0` it calls `os.path.getsize(output_file)` —
which raises into the catch-all handler when the output file is missing — and
returns `True`; on non-zero exit it prints the captured streams and returns
`False`; `TimeoutExpired` and any other exception also return `False`.  The
`Outcome` constructors record which branch ran (the branches print distinct
diagnostics); the boolean the Python function returns is `Outcome.toBool`. -/
def create_subset_font (env : ToolEnv) : Outcome :=
  if subset_timeout < env.duration then
    .timedOut
  else if env.exitCode = 0 then
    if env.outputExists then .success env.outputSize else .error
  else
    .failure env.stdout env.stderr

/-- A font-face rule as emitted by this module's `create_css_file`: family
`JingHuaLaoSongTi`, the bucket's subset file, and the bucket's inclusive
code-point interval as the `unicode-range` selector. -/
structure StyleRule where
  fontFamily : String
  srcFile : String
  unicodeRange : Nat × Nat
deriving DecidableEq

/-- This module's `create_css_file`: iterates over every entry of the table it
is handed (it receives no information about job outcomes) and emits one
font-face rule per entry, bound to that bucket's interval. -/
def create_css_file (ranges : List (String × Nat × Nat)) : List StyleRule :=
  ranges.map fun r =>
    ⟨"JingHuaLaoSongTi", "JingHuaLaoSongTi_" ++ r.1 ++ ".woff2", (r.2.1, r.2.2)⟩

/-- Observable trace of one run of this module's `main`. -/
structure Run where
  aborted : Bool
  attempted : List String
  outcomes : List (String × Outcome)
  summary : Nat × Nat
  css : Option (List StyleRule)
deriving DecidableEq

/-- This module's `main`: aborts (early `return`) if the input font is
missing; otherwise loops over every bucket of `get_unicode_ranges` (each
iteration calls `create_subset_font`; the loop body has no `break`, a failed
bucket only prints a skip message), counts the `True` results, then writes the
stylesheet for the full table unconditionally and prints the
`success_count/len(ranges)` summary.  `env` maps each bucket name to the
tool's behaviour on that bucket's invocation. -/
def main (fontExists : Bool) (env : String → ToolEnv) : Run :=
  if fontExists then
    let ranges := get_unicode_ranges
    let outcomes := ranges.map fun r => (r.1, create_subset_font (env r.1))
    { aborted := false
      attempted := ranges.map (·.1)
      outcomes := outcomes
      summary := ((outcomes.filter fun o => o.2.toBool).length, ranges.length)
      css := some (create_css_file ranges) }
  else
    { aborted := true, attempted := [], outcomes := [], summary := (0, 0), css := none }

end FontSubset

/-- Tool behaviour used in counterexample scenarios: the `cjk_basic` bucket's
job exceeds the 5-minute ceiling, every other bucket's job succeeds quickly
with a 100-byte output file. -/
def envScenario : String → ToolEnv := fun name =>
  if name = "cjk_basic" then ⟨1000, 0, "", "", true, 100⟩ else ⟨10, 0, "", "", true, 100⟩

/-!  Helper lemmas about `stripTags` (shared infrastructure, not claim
theorems). -/

/-- Unfolding equation for `stripTags` on the empty list. -/
theorem stripTags_nil : ExtractChars.stripTags [] = [] := by
  rw [ExtractChars.stripTags]

/-- Unfolding equation for `stripTags` on a cons cell. -/
theorem stripTags_cons (c : Char) (rest : List Char) :
    ExtractChars.stripTags (c :: rest) =
      if c = '<' ∧ rest.takeWhile (· != '>') ≠ [] ∧ rest.dropWhile (· != '>') ≠ [] then
        ExtractChars.stripTags (rest.dropWhile (· != '>')).tail
      else c :: ExtractChars.stripTags rest := by
  rw [ExtractChars.stripTags]

/-- Stripping never invents characters: every character of the stripped text
occurs in the original text. -/
theorem mem_stripTags (a : Char) : ∀ l : List Char, a ∈ ExtractChars.stripTags l → a ∈ l := by
  intro l
  induction l using ExtractChars.stripTags.induct with
  | case1 => simp [stripTags_nil]
  | case2 c rest hcond ih =>
    rw [stripTags_cons, if_pos hcond]
    intro h
    have h1 : a ∈ (rest.dropWhile (· != '>')).tail := ih h
    have h2 : List.Sublist (rest.dropWhile (· != '>')).tail rest :=
      (List.tail_sublist _).trans (List.dropWhile_sublist _)
    exact List.mem_cons_of_mem c (h2.mem h1)
  | case3 c rest hcond ih =>
    rw [stripTags_cons, if_neg hcond]
    intro h
    rcases List.mem_cons.mp h with h | h
    · exact h ▸ List.mem_cons_self c rest
    · exact List.mem_cons_of_mem c (ih h)

/-- A maximal run that starts at a `>` is empty. -/
theorem takeWhile_gt_cons (rest : List Char) :
    List.takeWhile (· != '>') ('>' :: rest) = [] := by
  simp [List.takeWhile_cons]

/-- A string containing no `<` is left unchanged by markup stripping. -/
theorem stripTags_eq_self (l : List Char) : '<' ∉ l → ExtractChars.stripTags l = l := by
  induction l using ExtractChars.stripTags.induct with
  | case1 => intro _; exact stripTags_nil
  | case2 c rest hcond ih =>
    intro h
    exact absurd (hcond.1 ▸ List.mem_cons_self c rest) h
  | case3 c rest hcond ih =>
    intro h
    rw [stripTags_cons, if_neg hcond, ih fun hm => h (List.mem_cons_of_mem c hm)]

/-- C6: markup stripping (deleting every `<…>` span as `re.sub(r'<[^>]+>', '')`
does) is idempotent — for every input, stripping the stripped text changes
nothing. -/
theorem c6_stripTags_idempotent :
    ∀ l : List Char, ExtractChars.stripTags (ExtractChars.stripTags l) = ExtractChars.stripTags l := by
  intro l
  induction l using ExtractChars.stripTags.induct with
  | case1 => rw [stripTags_nil, stripTags_nil]
  | case2 c rest hcond ih =>
    rw [stripTags_cons, if_pos hcond]
    exact ih
  | case3 c rest hcond ih =>
    rw [stripTags_cons, if_neg hcond]
    have hfalse : ¬(c = '<' ∧ (ExtractChars.stripTags rest).takeWhile (· != '>') ≠ [] ∧
        (ExtractChars.stripTags rest).dropWhile (· != '>') ≠ []) := by
      by_cases hc : c = '<'
      · have hrest : rest.takeWhile (· != '>') = [] ∨ rest.dropWhile (· != '>') = [] := by
          by_contra hcon
          push_neg at hcon
          exact hcond ⟨hc, hcon.1, hcon.2⟩
        rcases hrest with htake | hdrop
        · cases rest with
          | nil =>
            rw [stripTags_nil]
            simp
          | cons r rest₂ =>
            have hr : r = '>' := by
              by_contra hrne
              rw [List.takeWhile_cons] at htake
              simp [hrne] at htake
            subst hr
            have hstep : ExtractChars.stripTags ('>' :: rest₂) = '>' :: ExtractChars.stripTags rest₂ := by
              rw [stripTags_cons, if_neg (by simp)]
            rw [hstep]
            intro hAnd
            exact hAnd.2.1 (takeWhile_gt_cons _)
        · have hall : ∀ a ∈ ExtractChars.stripTags rest, (a != '>') = true := by
            intro a ha
            exact List.dropWhile_eq_nil_iff.mp hdrop a (mem_stripTags a rest ha)
          intro hAnd
          exact hAnd.2.2 (List.dropWhile_eq_nil_iff.mpr hall)
      · exact fun hAnd => hc hAnd.1
    rw [stripTags_cons, if_neg hfalse, ih]

/-- C2: evaluation of the three matchers on the corpus text `"Hello 世界!"`
(which markup stripping leaves unchanged).  The Latin matcher returns
`H,e,l,l,o,space,!` and the symbol matcher returns nothing, as claimed, and
the deduplicated union has 8 distinct characters; but the ideographic matcher
returns `H,e,l,l,o,世,界`, not just `世,界`: Python parses the five-hex-digit
escape ` 0` in its class as ` ` plus the range `0`–`⩭`, so the
class also covers U+0030–U+323A and in particular all ASCII letters. -/
theorem c2_hello_world_eval :
    ExtractChars.stripTags ("Hello 世界!".toList) = "Hello 世界!".toList
    ∧ (ExtractChars.analyze_html_content ("Hello 世界!".toList)).latin = "Hello !".toList
    ∧ (ExtractChars.analyze_html_content ("Hello 世界!".toList)).symbols = []
    ∧ (ExtractChars.analyze_html_content ("Hello 世界!".toList)).chinese = "Hello世界".toList
    ∧ (ExtractChars.analyze_html_content ("Hello 世界!".toList)).chinese ≠ "世界".toList
    ∧ ((ExtractChars.analyze_html_content ("Hello 世界!".toList)).chinese ++
        (ExtractChars.analyze_html_content ("Hello 世界!".toList)).latin ++
        (ExtractChars.analyze_html_content ("Hello 世界!".toList)).symbols).dedup.length = 8 := by
  have hstrip : ExtractChars.stripTags ("Hello 世界!".toList) = "Hello 世界!".toList :=
    stripTags_eq_self _ (by decide)
  refine ⟨hstrip, ?_, ?_, ?_, ?_, ?_⟩ <;>
    simp only [ExtractChars.analyze_html_content, hstrip] <;> decide

/-- C3: the three matcher character classes are not pairwise disjoint in the
code: because of the same ` 0` escape parse, the ideographic class
contains U+0030–U+323A, so `a` is accepted by both the ideographic and the
Latin matcher, and `。` (U+3002) by both the ideographic and the symbol
matcher.  (With the intended astral ranges `\U00020000`–… the three classes
would indeed be pairwise disjoint.) -/
theorem c3_matchers_overlap_eval :
    ExtractChars.extract_chinese_chars ['a'] = ['a']
    ∧ ExtractChars.extract_latin_chars ['a'] = ['a']
    ∧ ExtractChars.isChineseMatch 'a' = true
    ∧ ExtractChars.isLatinMatch 'a' = true
    ∧ ExtractChars.isChineseMatch '。' = true
    ∧ ExtractChars.isSymbolMatch '。' = true := by
  decide

/-- C1 counterexample: with the `cjk_basic` job timing out and every other
job (in particular `basic_latin`) succeeding, the stylesheet emitted by the
partitioned driver still contains the `cjk_basic` font-face rule — the claim
that no rule is emitted for a failed bucket is false — and on the two-bucket
scenario table the emitter produces two rules, not one: `create_css_file`
receives no success information and emits one rule per table entry. -/
theorem c1_counterexample :
    (FontSubset.create_subset_font (envScenario "cjk_basic")).toBool = false
    ∧ (FontSubset.create_subset_font (envScenario "basic_latin")).toBool = true
    ∧ (FontSubset.main true envScenario).summary = (4, 5)
    ∧ (⟨"JingHuaLaoSongTi", "JingHuaLaoSongTi_cjk_basic.woff2", (0x4E00, 0x9FFF)⟩ :
        FontSubset.StyleRule) ∈ ((FontSubset.main true envScenario).css.getD [])
    ∧ ((FontSubset.main true envScenario).css.getD []).length = 5
    ∧ (FontSubset.create_css_file
        [("basic_latin", 0x20, 0x7F), ("cjk_basic", 0x4E00, 0x9FFF)]).length = 2 := by
  decide

/-- C1 amended: in partitioned mode the emitted stylesheet contains exactly
one font-face rule per bucket of the classification table handed to the
emitter — each restricted to that bucket's code-point interval — regardless
of which subsetting jobs succeeded or failed; in the two-bucket scenario with
`cjk_basic` failing, the stylesheet therefore contains two rules, not one. -/
theorem c1_amended (env : String → ToolEnv) (ranges : List (String × Nat × Nat)) :
    (FontSubset.main true env).css = some (FontSubset.create_css_file FontSubset.get_unicode_ranges)
    ∧ (FontSubset.create_css_file ranges).length = ranges.length
    ∧ ∀ r ∈ ranges,
        (⟨"JingHuaLaoSongTi", "JingHuaLaoSongTi_" ++ r.1 ++ ".woff2", (r.2.1, r.2.2)⟩ :
          FontSubset.StyleRule) ∈ FontSubset.create_css_file ranges := by
  refine ⟨rfl, List.length_map ranges _, fun r hr => ?_⟩
  exact List.mem_map_of_mem _ hr

/-- C1 amended witness: instantiated at the scenario environment and the
two-bucket scenario table. -/
theorem c1_amended_witness :
    ("cjk_basic", (0x4E00 : Nat), (0x9FFF : Nat)) ∈
        [(("basic_latin" : String), (0x20 : Nat), (0x7F : Nat)), ("cjk_basic", 0x4E00, 0x9FFF)]
    ∧ (⟨"JingHuaLaoSongTi", "JingHuaLaoSongTi_" ++ "cjk_basic" ++ ".woff2", (0x4E00, 0x9FFF)⟩ :
        FontSubset.StyleRule) ∈ FontSubset.create_css_file
          [("basic_latin", 0x20, 0x7F), ("cjk_basic", 0x4E00, 0x9FFF)] :=
  ⟨by decide,
   (c1_amended envScenario [("basic_latin", 0x20, 0x7F), ("cjk_basic", 0x4E00, 0x9FFF)]).2.2
     ("cjk_basic", 0x4E00, 0x9FFF) (by decide)⟩

/-- C4 counterexample: when the comprehensive job exceeds its 15-minute
ceiling, `create_comprehensive_subset` returns through the `TimeoutExpired`
handler and the temporary character-list file is NOT removed (the cleanup
lines sit on the normal path, before the exit-code check, not in a `finally`
block). -/
theorem c4_counterexample :
    ExtractChars.create_comprehensive_subset ['a'] ⟨1000, 0, "", "", true, 5⟩ =
      (Outcome.timedOut, false) := by
  decide

/-- C4 amended: the temporary character-list file is removed on every path on
which the tool invocation itself returns — success, non-zero exit status, and
missing-output — but not when the invocation times out (or otherwise raises),
in which case the temporary file is left behind. -/
theorem c4_amended (chars : List Char) (env : ToolEnv)
    (h : env.duration ≤ ExtractChars.comprehensive_timeout) :
    (ExtractChars.create_comprehensive_subset chars env).2 = true := by
  unfold ExtractChars.create_comprehensive_subset
  rw [if_neg (by omega)]
  split_ifs <;> rfl

/-- C4 amended witness: a non-zero-exit run within the ceiling removes the
temporary file. -/
theorem c4_amended_witness :
    (10 : Nat) ≤ ExtractChars.comprehensive_timeout
    ∧ (ExtractChars.create_comprehensive_subset ['a'] ⟨10, 1, "boom", "err", false, 0⟩).2 = true :=
  ⟨by decide, c4_amended ['a'] ⟨10, 1, "boom", "err", false, 0⟩ (by decide)⟩

/-- C5 counterexample: a run whose tool exits with status zero and leaves an
output file that exists but is EMPTY (size 0) is reported as a success of
size 0 by both invokers — the code checks only that `os.path.getsize`
succeeds, never that the size is non-zero — contradicting the claim that an
empty output despite zero exit is treated as a failure. -/
theorem c5_counterexample :
    FontSubset.create_subset_font ⟨10, 0, "", "", true, 0⟩ = Outcome.success 0
    ∧ (ExtractChars.create_comprehensive_subset [] ⟨10, 0, "", "", true, 0⟩).1 =
        Outcome.success 0 := by
  decide

/-- C5 amended: an invocation is reported successful exactly when the tool
finishes within the ceiling, exits with status zero, and the output file is
present (its size — possibly 0 for an empty file — is then recorded); a
missing output file despite zero exit lands in the catch-all handler and is a
failure, like a tool invocation failure. -/
theorem c5_amended (env : ToolEnv) (chars : List Char) :
    ((∃ n, FontSubset.create_subset_font env = Outcome.success n) ↔
      (env.duration ≤ FontSubset.subset_timeout ∧ env.exitCode = 0 ∧ env.outputExists = true))
    ∧ (env.duration ≤ FontSubset.subset_timeout → env.exitCode = 0 → env.outputExists = false →
        FontSubset.create_subset_font env = Outcome.error)
    ∧ ((∃ n, (ExtractChars.create_comprehensive_subset chars env).1 = Outcome.success n) ↔
      (env.duration ≤ ExtractChars.comprehensive_timeout ∧ env.exitCode = 0 ∧
        env.outputExists = true))
    ∧ (∀ n, FontSubset.create_subset_font env = Outcome.success n → n = env.outputSize) := by
  obtain ⟨d, code, out, err, ex, size⟩ := env
  unfold FontSubset.create_subset_font ExtractChars.create_comprehensive_subset
  unfold FontSubset.subset_timeout ExtractChars.comprehensive_timeout
  dsimp only
  refine ⟨?_, ?_, ?_, ?_⟩
  · split_ifs with h1 h2 h3 <;> simp_all
  · intro h1 h2 h3
    subst h2 h3
    rw [if_neg (by omega), if_pos rfl, if_neg (by simp)]
  · split_ifs with h1 h2 h3 <;> simp_all
  · intro n
    split_ifs with h1 h2 h3 <;> simp_all

/-- C7: the wall-clock ceiling of a single fixed-range job (`timeout=300`) is
strictly shorter than that of the comprehensive whole-corpus job
(`timeout=900`); exceeding the ceiling makes the invoker return the dedicated
timeout outcome — a constructor distinct from the non-zero-exit outcome — to
its caller (the `TimeoutExpired` handler returns `False`, no exception
propagates), while a non-zero exit within the ceiling yields the
tool-failure outcome carrying the captured streams. -/
theorem c7_timeout_ceilings :
    FontSubset.subset_timeout < ExtractChars.comprehensive_timeout
    ∧ (∀ env : ToolEnv, FontSubset.subset_timeout < env.duration →
        FontSubset.create_subset_font env = Outcome.timedOut)
    ∧ (∀ (chars : List Char) (env : ToolEnv),
        ExtractChars.comprehensive_timeout < env.duration →
        (ExtractChars.create_comprehensive_subset chars env).1 = Outcome.timedOut)
    ∧ (∀ out err, Outcome.timedOut ≠ Outcome.failure out err)
    ∧ (∀ env : ToolEnv, env.exitCode ≠ 0 → env.duration ≤ FontSubset.subset_timeout →
        FontSubset.create_subset_font env = Outcome.failure env.stdout env.stderr) := by
  refine ⟨by decide, ?_, ?_, ?_, ?_⟩
  · intro env h
    unfold FontSubset.create_subset_font
    rw [if_pos h]
  · intro chars env h
    unfold ExtractChars.create_comprehensive_subset
    rw [if_pos h]
  · intro out err h
    exact Outcome.noConfusion h
  · intro env hcode hdur
    unfold FontSubset.create_subset_font
    rw [if_neg (by omega), if_neg hcode]

/-- C7 witness: a job taking 500 seconds exceeds the fixed-range ceiling and
is reported as a timeout there, while the same tool behaviour finishes within
the comprehensive ceiling; a fast non-zero exit is reported as a tool failure
with its streams. -/
theorem c7_timeout_ceilings_witness :
    FontSubset.subset_timeout < 500
    ∧ FontSubset.create_subset_font ⟨500, 0, "", "", true, 5⟩ = Outcome.timedOut
    ∧ (ExtractChars.create_comprehensive_subset [] ⟨500, 0, "", "", true, 5⟩).1 =
        Outcome.success 5
    ∧ ((10 : Nat) ≤ FontSubset.subset_timeout ∧
        FontSubset.create_subset_font ⟨10, 1, "o", "e", true, 5⟩ = Outcome.failure "o" "e") :=
  ⟨by decide,
   c7_timeout_ceilings.2.1 ⟨500, 0, "", "", true, 5⟩ (by decide),
   by decide,
   by decide,
   c7_timeout_ceilings.2.2.2.2 ⟨10, 1, "o", "e", true, 5⟩ (by decide) (by decide)⟩

/-- C8: in partitioned mode the driver attempts every bucket of the
classification table in order, whatever the outcomes of the other buckets'
jobs are (the loop has no early exit), and the end-of-run summary it prints is
the number of buckets whose job returned success out of the total number of
configured buckets. -/
theorem c8_driver_attempts_all (env : String → ToolEnv) :
    (FontSubset.main true env).attempted = FontSubset.get_unicode_ranges.map (·.1)
    ∧ (FontSubset.main true env).outcomes =
        FontSubset.get_unicode_ranges.map (fun r => (r.1, FontSubset.create_subset_font (env r.1)))
    ∧ (FontSubset.main true env).summary =
        ((FontSubset.get_unicode_ranges.filter
            (fun r => (FontSubset.create_subset_font (env r.1)).toBool)).length,
          FontSubset.get_unicode_ranges.length) := by
  refine ⟨rfl, rfl, ?_⟩
  unfold FontSubset.main
  rw [if_pos rfl]
  dsimp only
  rw [List.filter_map, List.length_map]
  rfl

/-- C9: a missing required input aborts each driver before any subsetting
invocation is attempted: with the input font missing, `font_subset.main`
returns with no bucket attempted and no job outcome; with the input font or
the corpus HTML file missing, `extract_webpage_chars.main` returns without
invoking the comprehensive job. -/
theorem c9_missing_input_aborts :
    (∀ env : String → ToolEnv,
      (FontSubset.main false env).aborted = true
      ∧ (FontSubset.main false env).attempted = []
      ∧ (FontSubset.main false env).outcomes = [])
    ∧ (∀ (htmlExists readOk : Bool) (html : List Char) (env : ToolEnv),
        (ExtractChars.main false htmlExists readOk html env).aborted = true
        ∧ (ExtractChars.main false htmlExists readOk html env).invoked = false
        ∧ (ExtractChars.main false htmlExists readOk html env).outcome = none)
    ∧ (∀ (fontExists readOk : Bool) (html : List Char) (env : ToolEnv),
        (ExtractChars.main fontExists false readOk html env).aborted = true
        ∧ (ExtractChars.main fontExists false readOk html env).invoked = false
        ∧ (ExtractChars.main fontExists false readOk html env).outcome = none) := by
  refine ⟨fun env => ⟨rfl, rfl, rfl⟩, fun he ro html env => ⟨rfl, rfl, rfl⟩,
    fun fe ro html env => ?_⟩
  cases fe <;> exact ⟨rfl, rfl, rfl⟩

/-- An invocation outcome maps to `True` exactly when it is a success carrying
some size (helper lemma). -/
theorem outcome_toBool_iff (o : Outcome) : o.toBool = true ↔ ∃ n, o = Outcome.success n := by
  cases o <;> simp [Outcome.toBool]

/-- Helper: in the comprehensive tail of the run, the stylesheet field is
populated exactly when the job outcome is a success. -/
theorem runComprehensive_css_iff (chars : List Char) (env : ToolEnv) :
    ((ExtractChars.runComprehensive chars env).css.isSome = true ↔
      ∃ n, (ExtractChars.runComprehensive chars env).outcome = some (Outcome.success n))
    ∧ ((ExtractChars.runComprehensive chars env).css = none
      ∨ (ExtractChars.runComprehensive chars env).css = some ExtractChars.create_css_file) := by
  unfold ExtractChars.runComprehensive
  rcases h : ExtractChars.create_comprehensive_subset chars env with ⟨o, t⟩
  cases o <;> simp [Outcome.toBool]

/-- C10: in comprehensive mode the stylesheet is written exactly when the
comprehensive subsetting job succeeded — `main` writes `font-comprehensive.css`
inside `if create_comprehensive_subset(...):` — so on any failure outcome
(non-zero exit, timeout, missing output) no stylesheet is produced, unlike the
partitioned driver, which writes its stylesheet unconditionally. -/
theorem c10_css_iff_success (fontExists htmlExists readOk : Bool) (html : List Char)
    (env : ToolEnv) :
    ((ExtractChars.main fontExists htmlExists readOk html env).css.isSome = true ↔
      (∃ n, (ExtractChars.main fontExists htmlExists readOk html env).outcome =
        some (Outcome.success n)))
    ∧ ((ExtractChars.main fontExists htmlExists readOk html env).css = none
      ∨ (ExtractChars.main fontExists htmlExists readOk html env).css =
          some ExtractChars.create_css_file)
    ∧ (∀ env2 : String → ToolEnv, (FontSubset.main true env2).css.isSome = true) := by
  have hmain : ExtractChars.main fontExists htmlExists readOk html env = ExtractChars.abortRun
      ∨ ∃ chars, ExtractChars.main fontExists htmlExists readOk html env =
          ExtractChars.runComprehensive chars env := by
    unfold ExtractChars.main
    cases fontExists
    · exact Or.inl (by simp)
    cases htmlExists
    · exact Or.inl (by simp)
    cases readOk
    · exact Or.inl (by simp)
    by_cases hh : html.isEmpty
    · exact Or.inl (by simp [hh])
    · refine Or.inr ⟨((ExtractChars.analyze_html_content html).chinese ++
          (ExtractChars.analyze_html_content html).latin ++
          (ExtractChars.analyze_html_content html).symbols).dedup, ?_⟩
      simp [hh, List.append_assoc]
  rcases hmain with hm | ⟨chars, hm⟩ <;> rw [hm]
  · exact ⟨by simp [ExtractChars.abortRun], Or.inl rfl, fun env2 => rfl⟩
  · exact ⟨(runComprehensive_css_iff chars env).1, (runComprehensive_css_iff chars env).2,
      fun env2 => rfl⟩

/-- C5 amended witness: a fast zero-exit run with a present 7-byte output file
is a success of size 7, and the same run with the output file missing is a
failure through the catch-all handler. -/
theorem c5_amended_witness :
    (∃ n, FontSubset.create_subset_font ⟨10, 0, "", "", true, 7⟩ = Outcome.success n)
    ∧ FontSubset.create_subset_font ⟨10, 0, "", "", false, 7⟩ = Outcome.error :=
  ⟨(c5_amended ⟨10, 0, "", "", true, 7⟩ []).1.mpr ⟨by decide, rfl, rfl⟩,
   (c5_amended ⟨10, 0, "", "", false, 7⟩ []).2.1 (by decide) rfl rfl⟩
